import Mathlib

/-!
Shallow embedding of the table-cell node and table-action-menu code of this
repository (src/packages/lexical-playground/src/plugins/TableActionMenuPlugin.jsx,
which contains both the React menu component and the TableCellNode class).

JavaScript `undefined`-able values are modelled as `Option`; JS numbers used
for pixel widths and divisions are modelled as `Rat` (exact rationals); JS
string truthiness is non-emptiness; JS number truthiness is being nonzero.
-/

namespace Lexical

/-- The TableCellHeaderStates constant object: NO_STATUS = 0, ROW = 1,
COLUMN = 2, BOTH = 3. -/
def TableCellHeaderStates.NO_STATUS : Nat := 0

/-- ROW header bit. -/
def TableCellHeaderStates.ROW : Nat := 1

/-- COLUMN header bit. -/
def TableCellHeaderStates.COLUMN : Nat := 2

/-- BOTH = ROW and COLUMN bits. -/
def TableCellHeaderStates.BOTH : Nat := 3

/-- A TableCellNode snapshot: the fields assigned by the class constructor
(`__headerState`, `__width`, `__backgroundColorStyle`, `__borderStyle`) plus
the inherited GridCellNode fields `__colSpan` and `__key`. -/
structure TableCellNode where
  headerState : Nat
  colSpan : Nat
  width : Option Rat
  backgroundColorStyle : Option String
  borderStyle : Option String
  key : String
deriving Repr, DecidableEq

/-- The class constructor
`constructor(headerState = NO_STATUS, colSpan = 1, width, backgroundColorStyle, borderStyle, key)`.
Parameters are in source order.  When the `key` argument is `undefined`
(`none`), the framework's LexicalNode base constructor generates a fresh key;
that fresh key is passed in explicitly here as `freshKey`. -/
def tableCellNodeConstructor (headerState : Nat) (colSpan : Nat)
    (width : Option Rat) (backgroundColorStyle : Option String)
    (borderStyle : Option String) (key : Option String)
    (freshKey : String) : TableCellNode :=
  TableCellNode.mk headerState colSpan width backgroundColorStyle borderStyle
    (key.getD freshKey)

/-- `static clone(node)` as written in the source: it calls the constructor
with the five arguments `node.__headerState, node.__colSpan, node.__width,
node.__key, node.__backgroundColorStyle`.  Positionally these land on the
constructor parameters `headerState, colSpan, width, backgroundColorStyle,
borderStyle`, and the constructor's `key` parameter receives `undefined`
(so the clone gets a freshly generated key). -/
def TableCellNode.clone (node : TableCellNode) (freshKey : String) :
    TableCellNode :=
  tableCellNodeConstructor node.headerState node.colSpan node.width
    (some node.key) node.backgroundColorStyle none freshKey

/-- `$createTableCellNode(headerState)` with the remaining parameters left at
their defaults (`colSpan = 1`, others `undefined`): it calls
`new TableCellNode(headerState, colSpan, width, backgroundColorStyle, borderStyle)`
with no key, so a fresh key is generated. -/
def createTableCellNode (headerState : Nat) (freshKey : String) :
    TableCellNode :=
  tableCellNodeConstructor headerState 1 none none none none freshKey

/-- `toggleHeaderStyle(headerStateToToggle)`: on the writable snapshot, if the
bit is present it subtracts it, otherwise it adds it.  `getWritable()` on a
node that is already writable returns the node itself, which is how the menu
claims invoke it, so it is modelled as a pure update of the snapshot. -/
def TableCellNode.toggleHeaderStyle (self : TableCellNode)
    (headerStateToToggle : Nat) : TableCellNode :=
  if self.headerState &&& headerStateToToggle = headerStateToToggle then
    TableCellNode.mk (self.headerState - headerStateToToggle) self.colSpan
      self.width self.backgroundColorStyle self.borderStyle self.key
  else
    TableCellNode.mk (self.headerState + headerStateToToggle) self.colSpan
      self.width self.backgroundColorStyle self.borderStyle self.key

/-- `getHeaderStyles()` reads `__headerState` of the latest snapshot. -/
def TableCellNode.getHeaderStyles (self : TableCellNode) : Nat :=
  self.headerState

/-- `hasHeader()`: true iff `__headerState !== TableCellHeaderStates.NO_STATUS`. -/
def TableCellNode.hasHeader (self : TableCellNode) : Bool :=
  self.headerState != TableCellHeaderStates.NO_STATUS

/-- `getTag()`: `th` when `hasHeader()`, else `td`. -/
def TableCellNode.getTag (self : TableCellNode) : String :=
  if self.hasHeader then "th" else "td"

/-- `getWidth()` reads `__width` of the latest snapshot. -/
def TableCellNode.getWidth (self : TableCellNode) : Option Rat :=
  self.width

/-- JS property access `this.backgroundColorStyle` (without the double
underscore): this property is never assigned anywhere in the class, so the
access evaluates to `undefined`. -/
def TableCellNode.backgroundColorStyleProp (_self : TableCellNode) :
    Option String :=
  none

/-- JS property access `this.borderStyle` (without the double underscore):
never assigned anywhere in the class, so `undefined`. -/
def TableCellNode.borderStyleProp (_self : TableCellNode) : Option String :=
  none

/-- JS property access `this.__bg`: the class declares and assigns
`__backgroundColorStyle`, but no `__bg` property is ever assigned, so this
access evaluates to `undefined`. -/
def TableCellNode.bg (_self : TableCellNode) : Option Rat :=
  none

/-- `setWidth(width)`: `self.getWritable().__width = width; return this.__width`.
On a writable snapshot `getWritable()` returns `this`, so the returned value
reads the just-assigned field.  Returns the updated node and the JS return
value. -/
def TableCellNode.setWidth (self : TableCellNode) (width : Rat) :
    TableCellNode × Option Rat :=
  let self2 := TableCellNode.mk self.headerState self.colSpan (some width)
    self.backgroundColorStyle self.borderStyle self.key
  (self2, self2.width)

/-- `setBg(backgroundColorStyle)`:
`self.getWritable().__backgroundColorStyle = backgroundColorStyle;
return this.backgroundColorStyle` -- note the return expression reads the
never-assigned property `backgroundColorStyle`, not the field
`__backgroundColorStyle`. -/
def TableCellNode.setBg (self : TableCellNode)
    (backgroundColorStyle : String) : TableCellNode × Option String :=
  let self2 := TableCellNode.mk self.headerState self.colSpan self.width
    (some backgroundColorStyle) self.borderStyle self.key
  (self2, self2.backgroundColorStyleProp)

/-- `setBorderStyle(borderStyle)`:
`self.getWritable().__borderStyle = borderStyle; return this.borderStyle` --
the return expression reads the never-assigned property `borderStyle`, not
the field `__borderStyle`. -/
def TableCellNode.setBorderStyle (self : TableCellNode)
    (borderStyle : String) : TableCellNode × Option String :=
  let self2 := TableCellNode.mk self.headerState self.colSpan self.width
    self.backgroundColorStyle (some borderStyle) self.key
  (self2, self2.borderStyleProp)

/-- `updateDOM(prevNode)`: true iff the previous snapshot's `__headerState`
or `__width` differs from the current one's. -/
def TableCellNode.updateDOM (self prevNode : TableCellNode) : Bool :=
  prevNode.headerState != self.headerState || prevNode.width != self.width

/-- Truthiness of a JS string valued `Option String`: `undefined` and the
empty string are falsy. -/
def strTruthy : Option String → Bool
  | none => false
  | some s => s != ""

/-- Truthiness of a JS number valued `Option Rat`: `undefined` and `0` are
falsy. -/
def numTruthy : Option Rat → Bool
  | none => false
  | some q => q != 0

/-- JS template interpolation of a possibly-undefined string, as in
`element.style.backgroundColor` being assigned the template string built from
`this.__backgroundColorStyle`: `undefined` interpolates to the text
"undefined". -/
def jsTemplateStr (o : Option String) : String :=
  o.getD "undefined"

/-- The inline style slots and class list of a rendered cell element that the
embedded code reads or writes.  A `none` slot was never assigned. -/
structure DOMElement where
  tag : String
  styleWidth : Option Rat
  styleBackgroundColor : Option String
  styleBorder : Option String
  classNames : List String
deriving Repr, DecidableEq

/-- `createDOM(config)`: creates an element with tag `getTag()`; assigns
`style.width` when `this.__width` is truthy; assigns `style.backgroundColor`
(from `__backgroundColorStyle`) when `this.__bg` is truthy -- but `__bg` is a
never-assigned property, so that guard is always false; assigns
`style.border` when `this.__borderStyle` is truthy; then adds the theme class
names: `config.theme.tableCell` always, and `config.theme.tableCellHeader`
when `hasHeader()`. -/
def TableCellNode.createDOM (self : TableCellNode)
    (themeTableCell themeTableCellHeader : String) : DOMElement :=
  DOMElement.mk self.getTag
    (if numTruthy self.width then self.width else none)
    (if numTruthy self.bg then
      some (jsTemplateStr self.backgroundColorStyle)
    else none)
    (if strTruthy self.borderStyle then
      some (jsTemplateStr self.borderStyle)
    else none)
    ([themeTableCell] ++ if self.hasHeader then [themeTableCellHeader] else [])

/-- The style slots of the element produced by `exportDOM`. -/
structure ExportedElement where
  styleBorder : String
  styleWidthPx : Rat
  styleVerticalAlign : String
  styleTextAlign : String
  styleBackgroundColor : Option String
deriving Repr, DecidableEq

/-- `exportDOM(editor)`: on the element produced by the superclass it sets a
fixed border `1px solid black`; sets `style.width` to
`this.getWidth() || Math.max(90, maxWidth / colCount)` pixels with
`maxWidth = 700` and `colCount = this.getParentOrThrow().getChildrenSize()`
(the `||` makes a width of `0` fall through to the computed value); sets
vertical-align and text-align; and sets the header background shading
`#f2f3f5` exactly when `hasHeader()`.  `colCount` is passed in, as the
parent row lives in the host tree; a cell is one of its parent's children, so
`colCount` is at least 1 in any well-formed call. -/
def TableCellNode.exportDOM (self : TableCellNode) (colCount : Nat) :
    ExportedElement :=
  ExportedElement.mk "1px solid black"
    (match self.getWidth with
     | some w => if w != 0 then w else max 90 ((700 : Rat) / colCount)
     | none => max 90 ((700 : Rat) / colCount))
    "top" "start"
    (if self.hasHeader then some "#f2f3f5" else none)

/-- A converted child handed to the `forChild` mapping of
`convertTableCellNodeElement`: an element node, a line-break node with its
text content, or some other non-element node (e.g. a text node). -/
inductive LexicalChildNode where
  | element
  | lineBreak (text : String)
  | other (text : String)
deriving Repr, DecidableEq

/-- `$isElementNode` on a converted child. -/
def isElementNode : LexicalChildNode → Bool
  | LexicalChildNode.element => true
  | _ => false

/-- `$isLineBreakNode` on a converted child. -/
def isLineBreakNode : LexicalChildNode → Bool
  | LexicalChildNode.lineBreak _ => true
  | _ => false

/-- `getTextContent()` of a converted child (only inspected on line breaks). -/
def childTextContent : LexicalChildNode → String
  | LexicalChildNode.lineBreak t => t
  | LexicalChildNode.other t => t
  | LexicalChildNode.element => ""

/-- What the `forChild` mapping returns for one child: the child unchanged, a
new paragraph node wrapping the child, or `null`. -/
inductive ForChildResult where
  | keep (child : LexicalChildNode)
  | wrappedInParagraph (child : LexicalChildNode)
  | nullResult
deriving Repr, DecidableEq

/-- The `forChild` mapping returned by `convertTableCellNodeElement`: when the
parent is a table cell and the child is not an element node, a line-break
child whose text content is exactly a newline yields `null`, and any other
such child is appended to a fresh paragraph node which is returned; otherwise
the child is returned unchanged. -/
def convertForChild (parentIsTableCell : Bool) (child : LexicalChildNode) :
    ForChildResult :=
  if parentIsTableCell && !(isElementNode child) then
    if isLineBreakNode child && childTextContent child == "\n" then
      ForChildResult.nullResult
    else
      ForChildResult.wrappedInParagraph child
  else
    ForChildResult.keep child

/-- JS `String.prototype.toLowerCase` on ASCII tag names, as a per-character
lowering. -/
def jsToLowerCase (s : String) : String :=
  String.mk (s.data.map Char.toLower)

/-- `convertTableCellNodeElement(domNode)`: lower-cases the node name and
creates a table cell with header state ROW for `th` and NO_STATUS otherwise.
Returns the node (the `forChild` mapping is `convertForChild` above). -/
def convertTableCellNodeElement (nodeName : String) (freshKey : String) :
    TableCellNode :=
  createTableCellNode
    (if jsToLowerCase nodeName == "th" then TableCellHeaderStates.ROW
     else TableCellHeaderStates.NO_STATUS)
    freshKey

/-- Modelled from the spec: the host import pipeline appends each converted
child to the new cell through the `forChild` mapping, and a `null` return
drops the child ("the child mapping returns null, which is dropped").  That
pipeline is host-framework code not present under src/. -/
def importedCellChildren (children : List LexicalChildNode) :
    List ForChildResult :=
  (children.map (convertForChild true)).filter
    (fun r => r != ForChildResult.nullResult)

/-- The per-edge composite style string maintained by the effects of the menu
component, e.g. the template for the bottom edge built from
`cellBorderBottomWidth`, `cellBorderBottomStyle`, `cellBorderBottomColor`. -/
def composeEdgeStyle (width style color : String) : String :=
  width ++ "px " ++ style ++ " " ++ color

/-- The inline border style slots of the cell's rendered element that
`styleCellOptions` writes. -/
structure CellElementStyle where
  borderTop : Option String
  borderBottom : Option String
  borderRight : Option String
  borderLeft : Option String
  borderRadius : Option String
deriving Repr, DecidableEq

/-- A rendered element with no inline border styles assigned. -/
def CellElementStyle.empty : CellElementStyle :=
  CellElementStyle.mk none none none none none

/-- `styleCellOptions(cellStyle, cellBackgroundColor, topBorderCellStyle,
bottomBorderCellStyle, rightBorderCellStyle, leftBorderCellStyle)`: on the
cell's rendered element, a truthy (non-empty) top style assigns
`style.borderTop` and also `style.borderRadius = '10px'`; truthy bottom,
right and left styles assign the corresponding border slots.  The
`cellStyle` and `cellBackgroundColor` arguments are unused (the lines using
them are commented out in the source). -/
def styleCellOptions (topBorderCellStyle bottomBorderCellStyle
    rightBorderCellStyle leftBorderCellStyle : String)
    (elem : CellElementStyle) : CellElementStyle :=
  let e1 :=
    if topBorderCellStyle != "" then
      CellElementStyle.mk (some topBorderCellStyle) elem.borderBottom
        elem.borderRight elem.borderLeft (some "10px")
    else elem
  let e2 :=
    if bottomBorderCellStyle != "" then
      CellElementStyle.mk e1.borderTop (some bottomBorderCellStyle)
        e1.borderRight e1.borderLeft e1.borderRadius
    else e1
  let e3 :=
    if rightBorderCellStyle != "" then
      CellElementStyle.mk e2.borderTop e2.borderBottom
        (some rightBorderCellStyle) e2.borderLeft e2.borderRadius
    else e2
  if leftBorderCellStyle != "" then
    CellElementStyle.mk e3.borderTop e3.borderBottom e3.borderRight
      (some leftBorderCellStyle) e3.borderRadius
  else e3

/-- The shape of a rectangular grid selection, as returned by
`selection.getShape()`. -/
structure GridSelectionShape where
  fromX : Nat
  toX : Nat
  fromY : Nat
  toY : Nat
deriving Repr, DecidableEq

/-- The `selectionCounts` state after the one-time menu-open effect: it starts
at `(columns, rows) = (1, 1)` and is updated to
`(toX - fromX + 1, toY - fromY + 1)` only when a grid selection is active at
menu-open time.  The effect's dependency list is `[editor]`, so it runs once
when the menu opens and the counts are not live-updated afterwards. -/
def updateSelectionCounts (selectionAtOpen : Option GridSelectionShape) :
    Nat × Nat :=
  match selectionAtOpen with
  | some shape => (shape.toX - shape.fromX + 1, shape.toY - shape.fromY + 1)
  | none => (1, 1)

/-- The arguments of the `$insertTableRow(tableNode, tableRowIndex,
shouldInsertAfter, rowCount, grid)` call that the menu issues to the host. -/
structure InsertRowCall where
  tableRowIndex : Nat
  shouldInsertAfter : Bool
  rowCount : Nat
deriving Repr, DecidableEq

/-- `insertTableRowAtSelection(shouldInsertAfter)`: inside the transaction it
reads the current selection; with a grid selection the row index is
`selectionShape.toY` when inserting after and `selectionShape.fromY`
otherwise, else it is the anchor cell's row index
(`$getTableRowIndexFromTableCellNode`); it then issues `$insertTableRow`
with that index, the flag, and the snapshotted `selectionCounts.rows`. -/
def insertTableRowAtSelection (selection : Option GridSelectionShape)
    (anchorRowIndex : Nat) (snapshotRows : Nat)
    (shouldInsertAfter : Bool) : InsertRowCall :=
  let tableRowIndex :=
    match selection with
    | some selectionShape =>
      if shouldInsertAfter then selectionShape.toY else selectionShape.fromY
    | none => anchorRowIndex
  InsertRowCall.mk tableRowIndex shouldInsertAfter snapshotRows

/-- A child of a table row as seen by `toggleTableColumnIsHeader`: either a
table cell node or some other node kind (for which `$isTableCellNode` is
false). -/
inductive RowChild where
  | cell (c : TableCellNode)
  | nonCell
deriving Repr, DecidableEq

/-- A child of the table node: a table row with its children, or some other
node kind (for which `$isTableRowNode` is false). -/
inductive TableChild where
  | row (cells : List RowChild)
  | nonRow
deriving Repr, DecidableEq

/-- The loop body of `toggleTableColumnIsHeader` over the table's children:
for each child it throws `Expected table row` if the child is not a row node;
then throws `Expected table cell to be inside of table row.` if
`tableColumnIndex` is out of the row's children bounds; then throws
`Expected table cell` if the child at that index is not a cell node; else it
toggles the COLUMN header bit on that cell.  (The source also checks
`tableColumnIndex < 0`; the index is a `Nat` here, so only the upper bound
remains.) -/
def toggleColumnInRows : List TableChild → Nat →
    Except String (List TableChild)
  | [], _ => Except.ok []
  | TableChild.nonRow :: _, _ => Except.error "Expected table row"
  | TableChild.row tableCells :: rest, tableColumnIndex =>
    if h : tableColumnIndex < tableCells.length then
      match tableCells.get ⟨tableColumnIndex, h⟩ with
      | RowChild.nonCell => Except.error "Expected table cell"
      | RowChild.cell tableCell =>
        (toggleColumnInRows rest tableColumnIndex).map
          (fun rest2 =>
            TableChild.row (tableCells.set tableColumnIndex
              (RowChild.cell
                (tableCell.toggleHeaderStyle TableCellHeaderStates.COLUMN)))
              :: rest2)
    else Except.error "Expected table cell to be inside of table row."

/-- The error condition asserted by the claim for
`toggleTableColumnIsHeader`: for some row of the table, the column index is
out of that row's cell-index bounds, or the child at that index is not a
table cell node.  (Stated over the row children only; non-row table children
fall outside it.) -/
def claimColumnErrorCondition (children : List TableChild)
    (tableColumnIndex : Nat) : Bool :=
  children.any (fun ch =>
    match ch with
    | TableChild.row tableCells =>
      tableCells.length ≤ tableColumnIndex ||
        (match tableCells[tableColumnIndex]? with
         | some RowChild.nonCell => true
         | _ => false)
    | TableChild.nonRow => false)

/-- The full error condition of the source loop: some table child is not a
row node, or some row violates the bounds/cell-kind condition at the column
index. -/
def sourceColumnErrorCondition (children : List TableChild)
    (tableColumnIndex : Nat) : Bool :=
  children.any (fun ch =>
    match ch with
    | TableChild.row tableCells =>
      tableCells.length ≤ tableColumnIndex ||
        (match tableCells[tableColumnIndex]? with
         | some RowChild.nonCell => true
         | _ => false)
    | TableChild.nonRow => true)

/-- Whether an `Except` computation raised an error. -/
def exceptIsError {ε α : Type} : Except ε α → Bool
  | Except.error _ => true
  | Except.ok _ => false

/-! ## Helper lemmas -/

theorem toggleHeaderStyle_headerState (n : TableCellNode) (m : Nat) :
    (n.toggleHeaderStyle m).headerState =
      if n.headerState &&& m = m then n.headerState - m
      else n.headerState + m := by
  unfold TableCellNode.toggleHeaderStyle
  split <;> rfl

/-! ## Claim theorems -/

/-- C1: for every headerState value b in 0..3 and bit m in ROW = 1,
COLUMN = 2, toggleHeaderStyle(m) flips exactly bit m: the result is b XOR m,
still below 4, and toggling twice restores b exactly. -/
theorem toggleHeaderStyle_xor (n : TableCellNode) (m : Nat)
    (hb : n.headerState < 4)
    (hm : m = TableCellHeaderStates.ROW ∨ m = TableCellHeaderStates.COLUMN) :
    (n.toggleHeaderStyle m).headerState = n.headerState ^^^ m ∧
    (n.toggleHeaderStyle m).headerState < 4 ∧
    ((n.toggleHeaderStyle m).toggleHeaderStyle m).headerState =
      n.headerState := by
  have h4 : n.headerState = 0 ∨ n.headerState = 1 ∨ n.headerState = 2 ∨
      n.headerState = 3 := by omega
  rcases hm with rfl | rfl <;> rcases h4 with h | h | h | h <;>
    simp only [toggleHeaderStyle_headerState, h, TableCellHeaderStates.ROW,
      TableCellHeaderStates.COLUMN] <;> decide

/-- Witness for C1 at headerState 3 and bit ROW. -/
theorem toggleHeaderStyle_xor_witness :
    ((TableCellNode.mk 3 1 none none none "k0").toggleHeaderStyle
        TableCellHeaderStates.ROW).headerState =
      (TableCellNode.mk 3 1 none none none "k0").headerState ^^^
        TableCellHeaderStates.ROW ∧
    ((TableCellNode.mk 3 1 none none none "k0").toggleHeaderStyle
        TableCellHeaderStates.ROW).headerState < 4 ∧
    (((TableCellNode.mk 3 1 none none none "k0").toggleHeaderStyle
          TableCellHeaderStates.ROW).toggleHeaderStyle
        TableCellHeaderStates.ROW).headerState =
      (TableCellNode.mk 3 1 none none none "k0").headerState :=
  toggleHeaderStyle_xor (TableCellNode.mk 3 1 none none none "k0")
    TableCellHeaderStates.ROW (by decide) (Or.inl rfl)

/-- A concrete cell for exercising `clone`: key k1, ROW header,
backgroundColorStyle red. -/
def cloneSampleCell : TableCellNode :=
  TableCellNode.mk 1 1 none (some "red") none "k1"

/-- C2 (code evaluation): `clone` does not preserve the key or the
backgroundColorStyle.  On a node with key "k1" and backgroundColorStyle
"red", the clone's key is the freshly generated one, its
backgroundColorStyle is "k1" (the original's key, landing on the wrong
constructor parameter) and its borderStyle is "red" (the original's
backgroundColorStyle). -/
theorem clone_mixes_fields :
    (cloneSampleCell.clone "freshKey").key = "freshKey" ∧
    (cloneSampleCell.clone "freshKey").backgroundColorStyle = some "k1" ∧
    (cloneSampleCell.clone "freshKey").borderStyle = some "red" ∧
    cloneSampleCell.key = "k1" ∧
    cloneSampleCell.backgroundColorStyle = some "red" ∧
    (cloneSampleCell.clone "freshKey").headerState =
      cloneSampleCell.headerState ∧
    (cloneSampleCell.clone "freshKey").colSpan = cloneSampleCell.colSpan ∧
    (cloneSampleCell.clone "freshKey").width = cloneSampleCell.width :=
  ⟨rfl, rfl, rfl, rfl, rfl, rfl, rfl, rfl⟩

/-- A concrete cell for exercising the style setters. -/
def setterSampleCell : TableCellNode :=
  TableCellNode.mk 0 1 none none none "k4"

/-- C7 (code evaluation): each setter stores its argument in the field, but
only setWidth returns the newly set value; setBg and setBorderStyle return
the never-assigned properties `backgroundColorStyle` and `borderStyle`, that
is, undefined. -/
theorem setters_store_but_return_undefined :
    (setterSampleCell.setBg "red").1.backgroundColorStyle = some "red" ∧
    (setterSampleCell.setBg "red").2 = none ∧
    (setterSampleCell.setBorderStyle "2px solid blue").1.borderStyle =
      some "2px solid blue" ∧
    (setterSampleCell.setBorderStyle "2px solid blue").2 = none ∧
    (setterSampleCell.setWidth 55).1.width = some 55 ∧
    (setterSampleCell.setWidth 55).2 = some 55 :=
  ⟨rfl, rfl, rfl, rfl, rfl, rfl⟩

/-- C10: updateDOM returns true iff the previous snapshot's headerState or
width differs from the current one's; when both agree, it returns false, so
changes to backgroundColorStyle or borderStyle alone never mark the element
for update. -/
theorem updateDOM_characterization (self prevNode : TableCellNode) :
    (self.updateDOM prevNode = true ↔
      (prevNode.headerState ≠ self.headerState ∨
        prevNode.width ≠ self.width)) ∧
    (prevNode.headerState = self.headerState → prevNode.width = self.width →
      self.updateDOM prevNode = false) := by
  constructor
  · simp [TableCellNode.updateDOM]
  · intro h1 h2
    simp [TableCellNode.updateDOM, h1, h2]

/-- Witness for C10: two snapshots that differ only in backgroundColorStyle
and borderStyle yield updateDOM = false. -/
theorem updateDOM_characterization_witness :
    (TableCellNode.mk 0 1 none (some "blue") (some "dotted") "k5").updateDOM
      (TableCellNode.mk 0 1 none (some "red") none "k5") = false :=
  (updateDOM_characterization
    (TableCellNode.mk 0 1 none (some "blue") (some "dotted") "k5")
    (TableCellNode.mk 0 1 none (some "red") none "k5")).2 rfl rfl

theorem styleCellOptions_borderTop (t b r l : String)
    (elem : CellElementStyle) :
    (styleCellOptions t b r l elem).borderTop =
      if t != "" then some t else elem.borderTop := by
  simp only [styleCellOptions]
  repeat' split <;> try rfl

theorem styleCellOptions_borderRadius (t b r l : String)
    (elem : CellElementStyle) :
    (styleCellOptions t b r l elem).borderRadius =
      if t != "" then some "10px" else elem.borderRadius := by
  simp only [styleCellOptions]
  repeat' split <;> try rfl

theorem styleCellOptions_borderBottom (t b r l : String)
    (elem : CellElementStyle) :
    (styleCellOptions t b r l elem).borderBottom =
      if b != "" then some b else elem.borderBottom := by
  simp only [styleCellOptions]
  repeat' split <;> try rfl

/-- C3 counterexample: with all three bottom-border draft fields empty, the
composed bottom string is "px  ", which is truthy, so applying the cell style
does overwrite the element's borderBottom; it is not left untouched. -/
theorem styleCellOptions_empty_bottom_overwrites :
    ¬ ((styleCellOptions "2px solid red" (composeEdgeStyle "" "" "") "" ""
        CellElementStyle.empty).borderBottom = none) := by
  decide

/-- C3 (amended): a non-empty top-border style sets the element's top border
and the fixed corner radius 10px; the composed per-edge string is
width ++ "px " ++ style ++ " " ++ color; but when the bottom draft fields are
all empty the composed bottom value is "px  " (non-empty), so borderBottom is
overwritten with it; only a literally empty composed string leaves the slot
untouched. -/
theorem styleCellOptions_amended (elem : CellElementStyle) (top r l : String)
    (htop : top ≠ "") :
    (styleCellOptions top (composeEdgeStyle "" "" "") r l elem).borderTop =
      some top ∧
    (styleCellOptions top (composeEdgeStyle "" "" "") r l
        elem).borderRadius = some "10px" ∧
    composeEdgeStyle "" "" "" = "px  " ∧
    (styleCellOptions top (composeEdgeStyle "" "" "") r l
        elem).borderBottom = some "px  " ∧
    (∀ bottom : String, bottom = "" →
      (styleCellOptions top bottom r l elem).borderBottom =
        elem.borderBottom) := by
  have htop2 : (top != "") = true := bne_iff_ne.mpr htop
  refine ⟨?_, ?_, rfl, ?_, ?_⟩
  · rw [styleCellOptions_borderTop, htop2]
    rfl
  · rw [styleCellOptions_borderRadius, htop2]
    rfl
  · rw [styleCellOptions_borderBottom]
    rfl
  · intro bottom hbot
    rw [styleCellOptions_borderBottom, hbot]
    rfl

/-- Witness for C3 (amended) at top style "2px solid red" on a fresh
element. -/
theorem styleCellOptions_amended_witness :
    (styleCellOptions "2px solid red" (composeEdgeStyle "" "" "") "" ""
        CellElementStyle.empty).borderTop = some "2px solid red" ∧
    (styleCellOptions "2px solid red" (composeEdgeStyle "" "" "") "" ""
        CellElementStyle.empty).borderRadius = some "10px" ∧
    composeEdgeStyle "" "" "" = "px  " ∧
    (styleCellOptions "2px solid red" (composeEdgeStyle "" "" "") "" ""
        CellElementStyle.empty).borderBottom = some "px  " ∧
    (∀ bottom : String, bottom = "" →
      (styleCellOptions "2px solid red" bottom "" ""
          CellElementStyle.empty).borderBottom =
        CellElementStyle.empty.borderBottom) :=
  styleCellOptions_amended CellElementStyle.empty "2px solid red" "" ""
    (by decide)

/-- A concrete cell with a set backgroundColorStyle and no header. -/
def bgSampleCell : TableCellNode :=
  TableCellNode.mk 0 1 none (some "red") none "k2"

/-- A concrete cell with the COLUMN header bit set. -/
def headerSampleCell : TableCellNode :=
  TableCellNode.mk 2 1 none none none "k3"

/-- C4 (code evaluation): createDOM picks the tag from hasHeader (td for
headerState 0, th for a header cell), but on a cell whose
backgroundColorStyle is set to "red" the rendered element gets no
backgroundColor, because the guard reads the never-assigned property
`__bg`. -/
theorem createDOM_ignores_background :
    (bgSampleCell.createDOM "cellClass" "headerClass").tag = "td" ∧
    (headerSampleCell.createDOM "cellClass" "headerClass").tag = "th" ∧
    bgSampleCell.backgroundColorStyle = some "red" ∧
    (bgSampleCell.createDOM "cellClass"
        "headerClass").styleBackgroundColor = none := by
  decide

/-- C5: the insert-row action issues the host $insertTableRow call with row
index fromY (above) or toY (below) under a grid selection, else the anchor
cell's row index, and with the snapshotted selected-row count
toY - fromY + 1 (default 1); for a selection spanning rows 2..4 with anchor
row 3, insert-above issues index 2 with count 3 and insert-below issues
index 4 with count 3. -/
theorem insertTableRowAtSelection_claim (shape : GridSelectionShape)
    (anchorRowIndex : Nat) :
    (∀ after : Bool,
      insertTableRowAtSelection (some shape) anchorRowIndex
          (updateSelectionCounts (some shape)).2 after =
        InsertRowCall.mk (if after then shape.toY else shape.fromY) after
          (shape.toY - shape.fromY + 1)) ∧
    (∀ after : Bool,
      insertTableRowAtSelection none anchorRowIndex
          (updateSelectionCounts none).2 after =
        InsertRowCall.mk anchorRowIndex after 1) ∧
    insertTableRowAtSelection (some (GridSelectionShape.mk 0 0 2 4)) 3
        (updateSelectionCounts (some (GridSelectionShape.mk 0 0 2 4))).2
        false = InsertRowCall.mk 2 false 3 ∧
    insertTableRowAtSelection (some (GridSelectionShape.mk 0 0 2 4)) 3
        (updateSelectionCounts (some (GridSelectionShape.mk 0 0 2 4))).2
        true = InsertRowCall.mk 4 true 3 :=
  ⟨fun _ => rfl, fun _ => rfl, rfl, rfl⟩

/-- C6: DOM conversion maps a th element to a ROW-header cell and a td
element to NO_STATUS; a converted non-element child is wrapped in a new
paragraph node, except a line-break child whose text content is exactly a
newline, for which the forChild mapping returns null; so importing a th with
a lone such line-break child yields a ROW-header cell with zero children. -/
theorem convertTableCellNodeElement_claim (freshKey : String) :
    (convertTableCellNodeElement "th" freshKey).headerState =
      TableCellHeaderStates.ROW ∧
    (convertTableCellNodeElement "td" freshKey).headerState =
      TableCellHeaderStates.NO_STATUS ∧
    (∀ child, isElementNode child = false →
      ¬ (isLineBreakNode child = true ∧ childTextContent child = "\n") →
      convertForChild true child =
        ForChildResult.wrappedInParagraph child) ∧
    (∀ child, isLineBreakNode child = true → childTextContent child = "\n" →
      convertForChild true child = ForChildResult.nullResult) ∧
    importedCellChildren [LexicalChildNode.lineBreak "\n"] = [] := by
  refine ⟨rfl, rfl, ?_, ?_, rfl⟩
  · intro child h1 h2
    cases child <;> simp_all [convertForChild, isLineBreakNode,
      childTextContent, isElementNode]
  · intro child h1 h2
    cases child <;> simp_all [convertForChild, isLineBreakNode,
      childTextContent, isElementNode]

/-- Witness for C6: a text-like child is wrapped in a paragraph, and a
newline line break is dropped. -/
theorem convertTableCellNodeElement_claim_witness :
    convertForChild true (LexicalChildNode.other "x") =
      ForChildResult.wrappedInParagraph (LexicalChildNode.other "x") ∧
    convertForChild true (LexicalChildNode.lineBreak "\n") =
      ForChildResult.nullResult :=
  ⟨(convertTableCellNodeElement_claim "k").2.2.1
      (LexicalChildNode.other "x") rfl (by simp [isLineBreakNode]),
    (convertTableCellNodeElement_claim "k").2.2.2.1
      (LexicalChildNode.lineBreak "\n") rfl rfl⟩

theorem exceptIsError_map {ε α β : Type} (f : α → β) (e : Except ε α) :
    exceptIsError (e.map f) = exceptIsError e := by
  cases e <;> rfl

theorem toggleColumnInRows_error_iff (children : List TableChild)
    (idx : Nat) :
    exceptIsError (toggleColumnInRows children idx) =
      sourceColumnErrorCondition children idx := by
  induction children with
  | nil => rfl
  | cons ch rest ih =>
    cases ch with
    | nonRow => rfl
    | row cs =>
      simp only [toggleColumnInRows, sourceColumnErrorCondition,
        List.any_cons]
      split
      · rename_i h
        cases hcg : cs.get ⟨idx, h⟩ with
        | nonCell =>
          have hg : cs[idx]? = some RowChild.nonCell := by
            rw [List.getElem?_eq_getElem h]
            simpa using hcg
          simp [hg, exceptIsError]
        | cell c =>
          have hg : cs[idx]? = some (RowChild.cell c) := by
            rw [List.getElem?_eq_getElem h]
            simpa using hcg
          have hlen : ¬ cs.length ≤ idx := by omega
          simp [hg, hlen, exceptIsError_map, ih, sourceColumnErrorCondition]
      · rename_i h
        have hlen : cs.length ≤ idx := by omega
        simp [hlen, exceptIsError]

theorem toggleColumnInRows_ok (children : List TableChild) (idx : Nat) :
    ∀ out, toggleColumnInRows children idx = Except.ok out →
      out.length = children.length ∧
      ∀ i, i < children.length →
        ∃ cs c, children[i]? = some (TableChild.row cs) ∧
          cs[idx]? = some (RowChild.cell c) ∧
          out[i]? = some (TableChild.row (cs.set idx (RowChild.cell
            (c.toggleHeaderStyle TableCellHeaderStates.COLUMN)))) := by
  induction children with
  | nil =>
    intro out hout
    simp only [toggleColumnInRows, Except.ok.injEq] at hout
    subst hout
    exact ⟨rfl, fun i hi => absurd hi (by simp)⟩
  | cons ch rest ih =>
    intro out hout
    cases ch with
    | nonRow => exact absurd hout (by simp [toggleColumnInRows])
    | row cs =>
      simp only [toggleColumnInRows] at hout
      split at hout
      · rename_i h
        cases hcg : cs.get ⟨idx, h⟩ with
        | nonCell => rw [hcg] at hout; simp at hout
        | cell c =>
          rw [hcg] at hout
          cases hrec : toggleColumnInRows rest idx with
          | error e => rw [hrec] at hout; simp [Except.map] at hout
          | ok rest2 =>
            rw [hrec] at hout
            simp only [Except.map, Except.ok.injEq] at hout
            subst hout
            obtain ⟨hlen, hpt⟩ := ih rest2 hrec
            refine ⟨by simp [hlen], ?_⟩
            intro i hi
            cases i with
            | zero =>
              refine ⟨cs, c, by simp, ?_, by simp⟩
              rw [List.getElem?_eq_getElem h]
              simpa using hcg
            | succ j =>
              have hj : j < rest.length := by
                simpa using Nat.lt_of_succ_lt_succ (by simpa using hi)
              obtain ⟨cs2, c2, h1, h2, h3⟩ := hpt j hj
              exact ⟨cs2, c2, by simpa using h1, h2, by simpa using h3⟩
      · simp at hout

/-- C8 counterexample: on a table whose single child is not a row node, the
loop raises an error ("Expected table row"), but the claim's error
condition -- quantified over rows only -- does not hold, so the claimed
equivalence fails at this input. -/
theorem toggleTableColumnIsHeader_counterexample :
    ¬ (exceptIsError (toggleColumnInRows [TableChild.nonRow] 0) =
        claimColumnErrorCondition [TableChild.nonRow] 0) := by
  decide

/-- C8 (amended): toggleTableColumnIsHeader flips the COLUMN bit on the cell
at the anchor's column index in every row, and raises an error if and only
if some child of the table is not a table row node, or for some row the
column index is out of the row's cell-index bounds or the child at that
index is not a table cell node. -/
theorem toggleTableColumnIsHeader_amended (children : List TableChild)
    (idx : Nat) :
    (exceptIsError (toggleColumnInRows children idx) =
      sourceColumnErrorCondition children idx) ∧
    (∀ out, toggleColumnInRows children idx = Except.ok out →
      out.length = children.length ∧
      ∀ i, i < children.length →
        ∃ cs c, children[i]? = some (TableChild.row cs) ∧
          cs[idx]? = some (RowChild.cell c) ∧
          out[i]? = some (TableChild.row (cs.set idx (RowChild.cell
            (c.toggleHeaderStyle TableCellHeaderStates.COLUMN))))) :=
  ⟨toggleColumnInRows_error_iff children idx,
    toggleColumnInRows_ok children idx⟩

/-- A concrete cell sitting in a one-row, one-column table. -/
def colSampleCell : TableCellNode :=
  TableCellNode.mk 0 1 none none none "k6"

/-- Witness for C8 (amended) on a one-row, one-column table at column 0. -/
theorem toggleTableColumnIsHeader_amended_witness :
    ∃ cs c,
      ([TableChild.row [RowChild.cell colSampleCell]])[0]? =
        some (TableChild.row cs) ∧
      cs[0]? = some (RowChild.cell c) ∧
      ([TableChild.row [RowChild.cell (colSampleCell.toggleHeaderStyle
          TableCellHeaderStates.COLUMN)]])[0]? =
        some (TableChild.row (cs.set 0 (RowChild.cell
          (c.toggleHeaderStyle TableCellHeaderStates.COLUMN)))) :=
  ((toggleTableColumnIsHeader_amended
      [TableChild.row [RowChild.cell colSampleCell]] 0).2
    [TableChild.row [RowChild.cell (colSampleCell.toggleHeaderStyle
      TableCellHeaderStates.COLUMN)]] rfl).2 0 (by decide)

/-- A concrete cell whose width is set to 0. -/
def zeroWidthCell : TableCellNode :=
  TableCellNode.mk 0 1 (some 0) none none "k9"

/-- C9 counterexample: a cell whose width is set to 0 does not export an
element of width 0: the falsy width falls through to the computed value
max(90, 700/colCount), here 350 for a 2-column row. -/
theorem exportDOM_width_zero_counterexample :
    zeroWidthCell.width = some 0 ∧
    ¬ ((zeroWidthCell.exportDOM 2).styleWidthPx = 0) ∧
    (zeroWidthCell.exportDOM 2).styleWidthPx = 350 := by
  refine ⟨rfl, ?_, ?_⟩ <;> norm_num [TableCellNode.exportDOM,
    TableCellNode.getWidth, zeroWidthCell, TableCellNode.hasHeader]

/-- C9 (amended): exportDOM produces an element with the fixed border
"1px solid black"; its width is the cell's set width when that width is set
and nonzero, and otherwise the computed max(90, 700/colCount); the header
background shading "#f2f3f5" is applied exactly when the cell has a
header. -/
theorem exportDOM_amended (n : TableCellNode) (colCount : Nat)
    (_hc : 0 < colCount) :
    (n.exportDOM colCount).styleBorder = "1px solid black" ∧
    (∀ w, n.width = some w → w ≠ 0 →
      (n.exportDOM colCount).styleWidthPx = w) ∧
    ((n.width = none ∨ n.width = some 0) →
      (n.exportDOM colCount).styleWidthPx =
        max 90 ((700 : Rat) / colCount)) ∧
    ((n.exportDOM colCount).styleBackgroundColor = some "#f2f3f5" ↔
      n.hasHeader = true) := by
  refine ⟨rfl, ?_, ?_, ?_⟩
  · intro w hw hw0
    simp [TableCellNode.exportDOM, TableCellNode.getWidth, hw, hw0]
  · rintro (hw | hw) <;>
      simp [TableCellNode.exportDOM, TableCellNode.getWidth, hw]
  · cases hh : n.hasHeader <;>
      simp [TableCellNode.exportDOM, hh]

/-- A concrete header cell of width 120. -/
def exportSampleCell : TableCellNode :=
  TableCellNode.mk 1 1 (some 120) none none "k7"

/-- Witness for C9 (amended) on a ROW-header cell of width 120 in a 4-column
row. -/
theorem exportDOM_amended_witness :
    (exportSampleCell.exportDOM 4).styleBorder = "1px solid black" ∧
    (exportSampleCell.exportDOM 4).styleWidthPx = 120 ∧
    (exportSampleCell.exportDOM 4).styleBackgroundColor = some "#f2f3f5" :=
  ⟨(exportDOM_amended exportSampleCell 4 (by decide)).1,
    (exportDOM_amended exportSampleCell 4 (by decide)).2.1 120 rfl
      (by norm_num),
    ((exportDOM_amended exportSampleCell 4 (by decide)).2.2.2).mpr rfl⟩

end Lexical
